import Mathlib

/-!
Shallow embedding of the `ethcontract-mock` execution node
(`src/ethcontract-mock/src/details/mod.rs`): chain state, RPC operations
(`eth_call`, `eth_sendRawTransaction`, `eth_getTransactionReceipt`), and the
per-method expectation engine (`Method`, `Expectation`, `Predicate`,
`Returns`, `TimesRange`, sequences).

Modelling conventions:
* Machine integers (`u64`, `U256`, addresses, hashes) are modelled as `Nat`;
  none of the verified properties depend on wrap-around.
* Rust panics are the fatal error channel: functions that can panic return
  `Except String α`, with `Except.error msg` standing for `panic!(msg)`.
  Because Rust panics unwind after in-place mutation, every stateful
  operation also returns its (possibly partially mutated) state alongside
  the `Except` outcome, mirroring the mutation order of the source.
* `HashMap` is modelled as an association list (`alist_get` returns the
  most recently inserted binding, `alist_insert` prepends, `alist_set`
  replaces in place), preserving lookup/insert semantics.
* The generic parameter/result tuples `P`/`R` of `Expectation<P, R>` are
  stored behind the type-erased `dyn ExpectationApi` interface in the
  source; the embedding represents them in the universal `Token` domain,
  with the expectation's stored `from_token` standing for `P::from_token`
  (which may fail) and `R`'s `into_token` being the identity on tokens.
-/

namespace EthMock

/-- ABI parameter types (mirrors `ethabi::ParamType` as used by the mock). -/
inductive ParamType where
  | address
  | bytes
  | int (size : Nat)
  | uint (size : Nat)
  | bool
  | string
  | array (inner : ParamType)
  | fixedBytes (size : Nat)
  | fixedArray (inner : ParamType) (size : Nat)
  | tuple (inner : List ParamType)

/-- ABI tokens (mirrors `ethabi::Token`). -/
inductive Token where
  | address (a : Nat)
  | fixedBytes (bs : List Nat)
  | bytes (bs : List Nat)
  | int (v : Nat)
  | uint (v : Nat)
  | bool (b : Bool)
  | string (s : String)
  | fixedArray (ts : List Token)
  | array (ts : List Token)
  | tuple (ts : List Token)

/-- State mutability of an ABI function (mirrors `ethabi::StateMutability`). -/
inductive StateMutability where
  | pure
  | view
  | nonPayable
  | payable
  deriving DecidableEq

/-- ABI function descriptor (mirrors the fields of `ethabi::Function` the
mock consults: input types, output types, state mutability). Parameter
names are irrelevant to the engine and omitted. -/
structure Function where
  name : String
  inputs : List ParamType
  outputs : List ParamType
  state_mutability : StateMutability

mutual

/-- Modelled from the spec: the default-value-synthesis collaborator
(`details/default.rs`, absent from `src/`): "producing a canonical zero
ABI value for an output type when no explicit return behavior is
configured". Zero for each scalar type, empty for dynamic types,
element-wise zero for composites. -/
def zeroToken : ParamType → Token
  | ParamType.address => Token.address 0
  | ParamType.bytes => Token.bytes []
  | ParamType.int _ => Token.int 0
  | ParamType.uint _ => Token.uint 0
  | ParamType.bool => Token.bool false
  | ParamType.string => Token.string ""
  | ParamType.array _ => Token.array []
  | ParamType.fixedBytes n => Token.fixedBytes (List.replicate n 0)
  | ParamType.fixedArray t n => Token.fixedArray (List.replicate n (zeroToken t))
  | ParamType.tuple ts => Token.tuple (zeroTokens ts)

/-- Zero value for each type in a list (helper for `zeroToken`). -/
def zeroTokens : List ParamType → List Token
  | [] => []
  | t :: ts => zeroToken t :: zeroTokens ts

end

/-- Modelled from the spec: `default::default_tuple` (`details/default.rs`,
absent from `src/`): "zero_value_for(outputTypes) -> encoded tuple". It
produces one tuple token holding a canonical zero per declared type. -/
def default_tuple (kinds : List ParamType) : Token :=
  Token.tuple (zeroTokens kinds)

/-- Modelled from the spec: the ABI byte domain. The spec treats "ABI
encode/decode of tuples" as an out-of-scope library collaborator, so call
data and result bytes are modelled symbolically: a byte is either a raw
byte (used for the 4-byte selector) or an encoded token. -/
inductive AbiByte where
  | raw (b : Nat)
  | tok (t : Token)

/-- Modelled from the spec: `ethcontract::common::abi::encode` — encoding a
token slice into result bytes, one symbolic byte per token. -/
def abi_encode (tokens : List Token) : List AbiByte :=
  tokens.map AbiByte.tok

/-- Numeric value of a symbolic byte (selector bytes are raw). -/
def AbiByte.byteVal : AbiByte → Nat
  | AbiByte.raw b => b
  | AbiByte.tok _ => 0

/-- Modelled from the spec: `Function::decode_input` — ABI-decoding the
post-selector bytes into the function's declared input types, fatal on
malformed data. In the symbolic byte domain this succeeds exactly when
every byte is an encoded token and the arity matches the declared inputs. -/
def decode_input (inputs : List ParamType) (data : List AbiByte) :
    Except String (List Token) :=
  let toks := data.filterMap fun b =>
    match b with
    | AbiByte.tok t => some t
    | AbiByte.raw _ => none
  if toks.length = data.length ∧ toks.length = inputs.length then
    Except.ok toks
  else
    Except.error "invalid data"

/-- Modelled from the spec: `TimesRange` (`src/range.rs`, absent from
`src/`): an inclusive/open-ended count range `[lower, upper]` where
`upper` may be unbounded. -/
structure TimesRange where
  lower : Nat
  upper : Option Nat
  deriving DecidableEq

/-- Modelled from the spec: `can_call(used)` returns true iff
`used < upper`, or always when the range is unbounded. -/
def TimesRange.can_call (r : TimesRange) (used : Nat) : Bool :=
  match r.upper with
  | none => true
  | some hi => used < hi

/-- Modelled from the spec: `lower_bound()` — the minimum required count,
used to decide when a sequence obligation becomes satisfied. -/
def TimesRange.lower_bound (r : TimesRange) : Nat :=
  r.lower

/-- Modelled from the spec: the default times range is `[0, ∞)` — an
unconfigured expectation may be called any number of times. -/
def TimesRange.default : TimesRange :=
  { lower := 0, upper := none }

/-- Transaction context handed to predicates and return functions
(`CallContext` at the crate root; fields per spec §4.2: sender, recipient,
nonce, gas, gas price, value, view-vs-transaction flag). -/
structure CallContext where
  is_view_call : Bool
  from_ : Nat
  to_ : Nat
  nonce : Nat
  gas : Nat
  gas_price : Nat
  value : Nat
  deriving DecidableEq

/-- Modelled from the spec: `mockall::SeqHandle` — membership of an
expectation in an externally tracked ordering constraint: a sequence
identifier plus this expectation's position among the sequence's
obligations. -/
structure SeqHandle where
  seq : Nat
  position : Nat
  deriving DecidableEq

/-- Modelled from the spec: the state of all sequences, mapping a sequence
identifier to the number of its leading obligations already satisfied. -/
def SeqEnv : Type := Nat → Nat

/-- Modelled from the spec: `SeqHandle::verify` succeeds iff all prior
obligations in the sequence are satisfied, i.e. the satisfied prefix has
reached this handle's position. -/
def SeqHandle.verify_ok (h : SeqHandle) (env : SeqEnv) : Bool :=
  h.position ≤ env h.seq

/-- Modelled from the spec: `SeqHandle::satisfy` marks this obligation
satisfied, extending the satisfied prefix past this handle's position. -/
def SeqHandle.satisfy (h : SeqHandle) (env : SeqEnv) : SeqEnv :=
  fun i => if i = h.seq then max (env i) (h.position + 1) else env i

/-- Match strategy of an expectation (mirrors `Predicate<P>`,
`details/mod.rs` lines 672–677; the decoded parameter tuple `P` is
represented in the `Token` domain). -/
inductive Predicate where
  | none
  | predicate (p : Token → Bool)
  | function (f : Token → Bool)
  | txFunction (f : CallContext → Token → Bool)

/-- `Predicate::can_call` (`details/mod.rs` lines 680–687). -/
def Predicate.can_call : Predicate → CallContext → Token → Bool
  | Predicate.none, _, _ => true
  | Predicate.predicate p, _, param => p param
  | Predicate.function f, _, param => f param
  | Predicate.txFunction f, tx, param => f tx param

/-- Return-value strategy of an expectation (mirrors `Returns<P, R>`,
`details/mod.rs` lines 690–696; `P` and `R` are represented in the
`Token` domain, `R`'s `into_token` being the identity). -/
inductive Returns where
  | default
  | error (msg : String)
  | const (t : Token)
  | function (f : Token → Except String Token)
  | txFunction (f : CallContext → Token → Except String Token)

/-- `Returns::process_tx` (`details/mod.rs` lines 698–710). The resulting
`Except` is the contract-level result channel (`Result<Token, String>`):
an error is a simulated revert, not a panic. Note that the `default` arm
of the source synthesizes zeros from `function.inputs` (the declared
input kinds), not from the output types. -/
def Returns.process_tx (self : Returns) (function : Function)
    (tx : CallContext) (param : Token) : Except String Token :=
  match self with
  | Returns.default => Except.ok (default_tuple function.inputs)
  | Returns.error e => Except.error e
  | Returns.const t => Except.ok t
  | Returns.function f => f param
  | Returns.txFunction f => f tx param

/-- Modelled from the spec: `TransactionResult`
(`details/transaction.rs`, absent from `src/`; fields per its uses in
`details/mod.rs`): the contract-level outcome of one dispatched call —
ABI-encoded bytes on success or a revert message on failure — plus the
matched expectation's confirmation delay. -/
structure TransactionResult where
  result : Except String (List AbiByte)
  confirmations : Nat

/-- One configured call contract for a method (mirrors
`Expectation<P, R>`, `details/mod.rs` lines 570–598, seen through the
type-erased `dyn ExpectationApi` interface). -/
structure Expectation where
  times : TimesRange
  used : Nat
  checked : Bool
  confirmations : Nat
  from_token : Token → Except String Token
  predicate : Predicate
  allow_calls : Bool
  allow_transactions : Bool
  returns : Returns
  sequence : Option SeqHandle

/-- `Expectation::new` (`details/mod.rs` lines 601–613): matches
everything, unbounded times, default return. The stored `from_token` is
the erased `P::from_token`; for the fresh expectation of a `P` agreeing
with the ABI it succeeds with the parameter tuple itself. -/
def Expectation.new : Expectation :=
  { times := TimesRange.default
    used := 0
    checked := false
    confirmations := 0
    from_token := fun t => Except.ok t
    predicate := Predicate.none
    allow_calls := true
    allow_transactions := true
    returns := Returns.default
    sequence := none }

/-- `ExpectationApi::is_active` (`details/mod.rs` lines 623–625). -/
def Expectation.is_active (e : Expectation) : Bool :=
  e.times.can_call e.used

/-- Result of `ExpectationApi::process_tx`. Rust mutates the expectation
through `&mut self`, so mutations made before a panic persist: the
(possibly mutated) expectation and sequence state are returned alongside
the outcome. `Except.error` is a panic; `Except.ok none` means the
expectation did not match and the scan falls through. -/
structure ProcOut where
  self : Expectation
  env : SeqEnv
  out : Except String (Option TransactionResult)

/-- `ExpectationApi::process_tx` for `Expectation<P, R>`
(`details/mod.rs` lines 627–669): set `checked`; filter by call mode,
then count range; convert the parameter tuple (fatal on failure); filter
by predicate; increment `used`; then verify/satisfy the sequence handle
(fatal when out of order); finally invoke the `Returns` strategy and
ABI-encode its token. -/
def Expectation.process_tx (e₀ : Expectation) (tx : CallContext)
    (description : String) (function : Function) (params : List Token)
    (env : SeqEnv) : ProcOut :=
  let e := { e₀ with checked := true }
  if (tx.is_view_call && !e.allow_calls) || (!tx.is_view_call && !e.allow_transactions) then
    ⟨e, env, Except.ok none⟩
  else if !(e.times.can_call e.used) then
    ⟨e, env, Except.ok none⟩
  else
    match e.from_token (Token.tuple params) with
    | Except.error msg =>
      ⟨e, env, Except.error ("unable to decode input for " ++ description ++ ": " ++ msg)⟩
    | Except.ok param =>
      if !(e.predicate.can_call tx param) then
        ⟨e, env, Except.ok none⟩
      else
        let e' := { e with used := e.used + 1 }
        let result :=
          (e'.returns.process_tx function tx param).map fun r => abi_encode [r]
        match e'.sequence with
        | some h =>
          if !(h.verify_ok env) then
            ⟨e', env, Except.error ("sequence violation: out-of-order call to " ++ description)⟩
          else
            let env' := if e'.used = e'.times.lower_bound then h.satisfy env else env
            ⟨e', env', Except.ok (some ⟨result, e'.confirmations⟩)⟩
        | none =>
          ⟨e', env, Except.ok (some ⟨result, e'.confirmations⟩)⟩

/-- A contract method: ABI descriptor plus its ordered expectations
(mirrors `Method`, `details/mod.rs` lines 481–494). -/
structure Method where
  description : String
  function : Function
  generation : Nat
  expectations : List Expectation

/-- `Method::new` (`details/mod.rs` lines 498–507). The description
string is a human-readable rendering of signature and address
(`abi_signature()` is a formatting collaborator, modelled by the
function's name). -/
def Method.new (address : Nat) (function : Function) : Method :=
  { description := function.name ++ " on contract " ++ toString address
    function := function
    generation := 0
    expectations := [] }

/-- `Method::expect` (`details/mod.rs` lines 510–516): appends a fresh
expectation and returns its index plus the current generation. -/
def Method.expect (m : Method) : Method × Nat × Nat :=
  ({ m with expectations := m.expectations ++ [Expectation.new] },
   m.expectations.length, m.generation)

/-- The expectation scan of `Method::process_tx` (`details/mod.rs` lines
532–544): visit expectations in insertion order; skip inactive ones
untouched; the first whose `process_tx` yields a result (or panics) stops
the scan; a fall-through (`none`) continues with the mutated expectation
kept in place. -/
def processExpectations (tx : CallContext) (description : String)
    (function : Function) (params : List Token) :
    List Expectation → SeqEnv →
    List Expectation × SeqEnv × Except String (Option TransactionResult)
  | [], env => ([], env, Except.ok none)
  | e :: rest, env =>
    if e.is_active then
      let p := e.process_tx tx description function params env
      match p.out with
      | Except.error msg => (p.self :: rest, p.env, Except.error msg)
      | Except.ok (some r) => (p.self :: rest, p.env, Except.ok (some r))
      | Except.ok none =>
        let r := processExpectations tx description function params rest p.env
        (p.self :: r.1, r.2.1, r.2.2)
    else
      let r := processExpectations tx description function params rest env
      (e :: r.1, r.2.1, r.2.2)

/-- Result of `Method::process_tx` / `Contract::process_tx`: mutated
owner, sequence state, and either a panic or the transaction result. -/
structure MethodOut where
  self : Method
  env : SeqEnv
  out : Except String TransactionResult

/-- `Method::process_tx` (`details/mod.rs` lines 519–547): the
non-payable guard panics before anything else; the call data past the
selector is decoded once (fatal on failure); then the expectation scan
runs; no match is a fatal "unexpected call". -/
def Method.process_tx (m : Method) (tx : CallContext) (data : List AbiByte)
    (env : SeqEnv) : MethodOut :=
  if tx.value ≠ 0 ∧ m.function.state_mutability ≠ StateMutability.payable then
    ⟨m, env, Except.error ("call to non-payable " ++ m.description ++
      " with non-zero value " ++ toString tx.value)⟩
  else
    match decode_input m.function.inputs (data.drop 4) with
    | Except.error e =>
      ⟨m, env, Except.error ("unable to decode input for " ++ m.description ++ ": " ++ e)⟩
    | Except.ok params =>
      let r := processExpectations tx m.description m.function params m.expectations env
      let m' := { m with expectations := r.1 }
      match r.2.2 with
      | Except.error msg => ⟨m', r.2.1, Except.error msg⟩
      | Except.ok (some result) => ⟨m', r.2.1, Except.ok result⟩
      | Except.ok none => ⟨m', r.2.1, Except.error ("unexpected call to " ++ m.description)⟩

/-- Look up the most recently inserted binding for a key (models
`HashMap` lookup over an association list). -/
def alist_get {β : Type} (m : List (Nat × β)) (k : Nat) : Option β :=
  match m with
  | [] => none
  | (k', v) :: rest => if k' = k then some v else alist_get rest k

/-- Insert a binding (models `HashMap::insert`: the new binding shadows
any earlier one for the same key). -/
def alist_insert {β : Type} (m : List (Nat × β)) (k : Nat) (v : β) :
    List (Nat × β) :=
  (k, v) :: m

/-- Replace the value bound to a key in place (models mutating through
`get_mut`); the map is unchanged when the key is absent. -/
def alist_set {β : Type} (m : List (Nat × β)) (k : Nat) (v : β) :
    List (Nat × β) :=
  match m with
  | [] => []
  | (k', v') :: rest =>
    if k' = k then (k', v) :: rest else (k', v') :: alist_set rest k v

/-- An ABI, modelled as the contract's function list with each function
paired with its 4-byte selector (`function.selector()` is a hashing
collaborator, modelled as a precomputed value). -/
def Abi : Type := List (Nat × Function)

/-- A mocked contract instance (mirrors `Contract`, `details/mod.rs`
lines 436–439): an address plus a selector-to-method registry. -/
structure Contract where
  address : Nat
  methods : List (Nat × Method)

/-- `Contract::new` (`details/mod.rs` lines 442–452): every ABI function
is registered under its selector; a colliding selector shadows the
earlier registration (last one wins). -/
def Contract.new (address : Nat) (abi : Abi) : Contract :=
  { address := address
    methods := abi.foldl (fun ms sf => alist_insert ms sf.1 (Method.new address sf.2)) [] }

/-- The 4-byte selector at the head of call data
(`H32::try_from(&data[0..4])`), combined into a single number. -/
def selectorOf (data : List AbiByte) : Nat :=
  match data with
  | b0 :: b1 :: b2 :: b3 :: _ =>
    ((b0.byteVal * 256 + b1.byteVal) * 256 + b2.byteVal) * 256 + b3.byteVal
  | _ => 0

/-- Result of `Contract::process_tx`: mutated contract, sequence state,
and either a panic or the transaction result. -/
structure ContractOut where
  self : Contract
  env : SeqEnv
  out : Except String TransactionResult

/-- `Contract::process_tx` (`details/mod.rs` lines 465–478): data shorter
than the 4-byte selector is fatal; an unknown selector is fatal;
otherwise dispatch to the method. -/
def Contract.process_tx (c : Contract) (tx : CallContext)
    (data : List AbiByte) (env : SeqEnv) : ContractOut :=
  if data.length < 4 then
    ⟨c, env, Except.error "transaction has invalid call data"⟩
  else
    let signature := selectorOf data
    match alist_get c.methods signature with
    | none =>
      ⟨c, env, Except.error ("contract " ++ toString c.address ++
        " does not have method with signature " ++ toString signature)⟩
    | some m =>
      let r := m.process_tx tx data env
      ⟨{ c with methods := alist_set c.methods signature r.self }, r.env, r.out⟩

/-- A transaction receipt (the fields of `web3::types::TransactionReceipt`
populated by the mock, `details/mod.rs` lines 389–404). -/
structure TransactionReceipt where
  transaction_hash : Nat
  transaction_index : Nat
  block_hash : Option Nat
  block_number : Option Nat
  from_ : Nat
  to_ : Option Nat
  cumulative_gas_used : Nat
  gas_used : Option Nat
  contract_address : Option Nat
  status : Option Nat
  deriving DecidableEq

/-- Internal transport state (mirrors `MockTransportState`,
`details/mod.rs` lines 41–65), the state behind the single mutex. -/
structure MockTransportState where
  chain_id : Nat
  gas_price : Nat
  request_id : Nat
  block : Nat
  address : Nat
  nonce : List (Nat × Nat)
  contracts : List (Nat × Contract)
  receipts : List (Nat × TransactionReceipt)

/-- `MockTransport::new` (`details/mod.rs` lines 69–82): fresh state with
gas price 1 and all counters and tables empty. -/
def MockTransportState.new (chain_id : Nat) : MockTransportState :=
  { chain_id := chain_id
    gas_price := 1
    request_id := 0
    block := 0
    address := 0
    nonce := []
    contracts := []
    receipts := [] }

/-- `MockTransport::deploy` (`details/mod.rs` lines 85–94): bump the
address counter, derive the contract address from it, register the
contract built from the ABI. -/
def deploy (s : MockTransportState) (abi : Abi) : MockTransportState × Nat :=
  let s' := { s with address := s.address + 1 }
  let address := s'.address
  ({ s' with contracts := alist_insert s'.contracts address (Contract.new address abi) },
   address)

/-- Recovered fields of a signed raw transaction (the result shape of
`sign::verify` per spec §6). -/
structure Tx where
  from_ : Nat
  to_ : Nat
  nonce : Nat
  gas : Nat
  gas_price : Nat
  value : Nat
  data : List AbiByte
  hash : Nat

/-- Modelled from the spec: raw signed transaction bytes, represented by
their recovery outcome — either the fields a valid signature recovers to,
or malformed bytes. -/
inductive RawTx where
  | valid (tx : Tx)
  | malformed

/-- Modelled from the spec: `sign::verify` (`details/sign.rs`, absent from
`src/`): "recovers signer address and decodes transaction fields (nonce,
to, gas, value, data)", fatal on a malformed or invalid signature. -/
def verify (raw : RawTx) (_chain_id : Nat) : Except String Tx :=
  match raw with
  | RawTx.valid tx => Except.ok tx
  | RawTx.malformed => Except.error "invalid raw transaction"

/-- An `eth_call` request (the fields of `web3::types::CallRequest` the
mock consults; note `gas_price` is a declared field of the request). -/
structure CallRequest where
  from_ : Option Nat
  to_ : Option Nat
  gas : Option Nat
  gas_price : Option Nat
  value : Option Nat
  data : Option (List AbiByte)

/-- A block-number argument (`web3::types::BlockNumber`). -/
inductive BlockNumber where
  | earliest
  | latest
  | pending
  | number (n : Nat)
  deriving DecidableEq

/-- The guard `BlockNumber::Number(n) if n != state.block`: a specific
historical block other than the current one. -/
def blockMismatch : BlockNumber → Nat → Bool
  | BlockNumber.number n, b => n != b
  | _, _ => false

/-- Outcome of `eth_call` short of a panic: serialized result bytes, or
the RPC-level "execution reverted" error (`Error::Rpc`). -/
inductive CallOut where
  | ok (data : List AbiByte)
  | revert (message : String)

/-- Result of `MockTransport::call`: the (possibly mutated) state, the
sequence state, and either a panic or the RPC outcome. -/
structure EthCallOut where
  state : MockTransportState
  env : SeqEnv
  out : Except String CallOut

/-- The view-mode transaction context built by `MockTransport::call`
(`details/mod.rs` lines 318–326). Both `gas` and `gas_price` are taken
from the request's `gas` field — the node's configured gas price is only
the fallback when the request omits `gas`, and the request's own
`gas_price` field is never consulted. -/
def call_context (nonce : Nat) (gas_price : Nat) (to_ : Nat)
    (request : CallRequest) : CallContext :=
  { is_view_call := true
    from_ := request.from_.getD 0
    to_ := to_
    nonce := nonce
    gas := request.gas.getD 1
    gas_price := request.gas.getD gas_price
    value := request.value.getD 0 }

/-- `MockTransport::call` (`details/mod.rs` lines 289–340): check the
block argument, resolve sender and recipient, look the nonce up without
incrementing it, build the view-mode context, dispatch to the contract,
and surface a contract-level failure as an "execution reverted" RPC
error. Only the contract registry (expectation bookkeeping) is written. -/
def call (s : MockTransportState) (env : SeqEnv) (request : CallRequest)
    (blockArg : Option BlockNumber) : EthCallOut :=
  let block := blockArg.getD BlockNumber.pending
  if block = BlockNumber.earliest then
    ⟨s, env, Except.error "mock node does not support executing methods on earliest block"⟩
  else if blockMismatch block s.block then
    ⟨s, env, Except.error "mock node does not support executing methods on non-last block"⟩
  else
    match request.to_ with
    | none => ⟨s, env, Except.error "call to field is empty"⟩
    | some to_ =>
      let from_ := request.from_.getD 0
      let nonce := (alist_get s.nonce from_).getD 0
      let gas_price := s.gas_price
      match alist_get s.contracts to_ with
      | none =>
        ⟨s, env, Except.error ("there is no mocked contract with address " ++ toString to_)⟩
      | some contract =>
        let context := call_context nonce gas_price to_ request
        let data := request.data.getD []
        let r := contract.process_tx context data env
        let s' := { s with contracts := alist_set s.contracts to_ r.self }
        match r.out with
        | Except.error msg => ⟨s', r.env, Except.error msg⟩
        | Except.ok result =>
          match result.result with
          | Except.ok bytes => ⟨s', r.env, Except.ok (CallOut.ok bytes)⟩
          | Except.error err =>
            ⟨s', r.env, Except.ok (CallOut.revert ("execution reverted: " ++ err))⟩

/-- The state-changing transaction context built by
`MockTransport::send_raw_transaction` (`details/mod.rs` lines 375–383)
from the recovered transaction fields. -/
def send_context (tx : Tx) : CallContext :=
  { is_view_call := false
    from_ := tx.from_
    to_ := tx.to_
    nonce := tx.nonce
    gas := tx.gas
    gas_price := tx.gas_price
    value := tx.value }

/-- Result of `MockTransport::send_raw_transaction`: the (possibly
partially mutated) state, the sequence state, and either a panic or the
transaction hash. -/
structure SendOut where
  state : MockTransportState
  env : SeqEnv
  out : Except String Nat

/-- `MockTransport::send_raw_transaction` (`details/mod.rs` lines
354–411): recover the transaction, check the stored nonce exactly
(`entry(..).or_insert(0)` creates a missing entry at 0, and a mismatch is
fatal), increment the nonce, dispatch to the contract, advance the block
by 1, record the receipt (status 1 on contract-level success, 0 on
revert; block number as of this point), then advance the block further by
the matched expectation's confirmations, and return the hash. -/
def send_raw_transaction (s : MockTransportState) (env : SeqEnv)
    (raw_tx : RawTx) : SendOut :=
  match verify raw_tx s.chain_id with
  | Except.error msg => ⟨s, env, Except.error msg⟩
  | Except.ok tx =>
    let nonce0 := (alist_get s.nonce tx.from_).getD 0
    let s₁ :=
      if (alist_get s.nonce tx.from_).isNone then
        { s with nonce := alist_insert s.nonce tx.from_ 0 }
      else s
    if nonce0 ≠ tx.nonce then
      ⟨s₁, env, Except.error ("nonce mismatch for account " ++ toString tx.from_ ++
        ": expected " ++ toString tx.nonce ++ ", actual " ++ toString nonce0)⟩
    else
      let s₂ := { s₁ with nonce := alist_insert s₁.nonce tx.from_ (nonce0 + 1) }
      match alist_get s₂.contracts tx.to_ with
      | none =>
        ⟨s₂, env, Except.error ("there is no mocked contract with address " ++ toString tx.to_)⟩
      | some contract =>
        let r := contract.process_tx (send_context tx) tx.data env
        let s₃ := { s₂ with contracts := alist_set s₂.contracts tx.to_ r.self }
        match r.out with
        | Except.error msg => ⟨s₃, r.env, Except.error msg⟩
        | Except.ok result =>
          let s₄ := { s₃ with block := s₃.block + 1 }
          let receipt : TransactionReceipt :=
            { transaction_hash := tx.hash
              transaction_index := 0
              block_hash := none
              block_number := some s₄.block
              from_ := tx.from_
              to_ := some tx.to_
              cumulative_gas_used := 1
              gas_used := none
              contract_address := none
              status := some (if result.result.isOk then 1 else 0) }
          let s₅ := { s₄ with receipts := alist_insert s₄.receipts tx.hash receipt }
          let s₆ := { s₅ with block := s₅.block + result.confirmations }
          ⟨s₆, r.env, Except.ok tx.hash⟩

/-- `MockTransport::get_transaction_receipt` (`details/mod.rs` lines
413–422): look the receipt up by hash, fatal when absent. -/
def get_transaction_receipt (s : MockTransportState) (transaction : Nat) :
    Except String TransactionReceipt :=
  match alist_get s.receipts transaction with
  | some r => Except.ok r
  | none => Except.error ("there is no transaction with hash " ++ toString transaction)

/-! Concrete fixtures used to instantiate the verified properties. -/

/-- A view function with one address input and one uint256 output. -/
def balanceOfFn : Function :=
  { name := "balanceOf"
    inputs := [ParamType.address]
    outputs := [ParamType.uint 256]
    state_mutability := StateMutability.view }

/-- A non-payable function with no inputs and one uint256 output. -/
def noopFn : Function :=
  { name := "noop"
    inputs := []
    outputs := [ParamType.uint 256]
    state_mutability := StateMutability.nonPayable }

/-- Call data holding only the 4-byte selector `7` of `noopFn`. -/
def sel7 : List AbiByte :=
  [AbiByte.raw 0, AbiByte.raw 0, AbiByte.raw 0, AbiByte.raw 7]

/-- A fresh expectation configured with two extra confirmation blocks. -/
def expConf2 : Expectation :=
  { Expectation.new with confirmations := 2 }

/-- A method for `noopFn` holding the single expectation `expConf2`. -/
def methodNoop : Method :=
  { (Method.new 1 noopFn) with expectations := [expConf2] }

/-- A deployed contract at address 1 exposing `methodNoop` at selector 7. -/
def contract1 : Contract :=
  { address := 1, methods := [(7, methodNoop)] }

/-- A fresh chain state with `contract1` deployed. -/
def state1 : MockTransportState :=
  { (MockTransportState.new 1337) with contracts := [(1, contract1)] }

/-- A recovered transaction from address 5 to `contract1` with nonce 0. -/
def tx1 : Tx :=
  { from_ := 5, to_ := 1, nonce := 0, gas := 1, gas_price := 1, value := 0,
    data := sel7, hash := 99 }

/-- The empty sequence environment: no obligation satisfied yet. -/
def env0 : SeqEnv := fun _ => 0

/-- A default view-mode context used to exercise pure strategies. -/
def ctx0 : CallContext :=
  { is_view_call := true, from_ := 0, to_ := 1, nonce := 0, gas := 1,
    gas_price := 1, value := 0 }

/-- C1: for a method whose matched expectation has `Returns::Default`, the
produced value is the zero tuple synthesized from the function's declared
INPUT types (`function.inputs` in `Returns::process_tx`), which differs
from the canonical zero-value tuple of the declared output types whenever
the two type lists differ — exhibited on `balanceOf(address) → uint256`. -/
theorem returns_default_zeroes_input_types_not_output_types :
    Returns.process_tx Returns.default balanceOfFn ctx0 (Token.tuple [Token.address 5])
      = Except.ok (default_tuple [ParamType.address])
    ∧ default_tuple [ParamType.address] ≠ default_tuple balanceOfFn.outputs := by
  refine ⟨rfl, ?_⟩
  simp [default_tuple, zeroTokens, zeroToken, balanceOfFn]

/-- C10: the `eth_call` transaction context takes both its `gas` and its
`gas_price` field from the request's `gas` field; the request's own
`gas_price` field is never consulted; only when the request omits `gas`
does the context's `gas_price` fall back to the node's gas price (and the
context's `gas` to the constant 1). -/
theorem call_context_gas_price_from_request_gas :
    (∀ (nonce gp to_addr g : Nat) (request : CallRequest),
      request.gas = some g →
      (call_context nonce gp to_addr request).gas = g ∧
      (call_context nonce gp to_addr request).gas_price = g) ∧
    (∀ (nonce gp to_addr : Nat) (request : CallRequest) (x : Option Nat),
      call_context nonce gp to_addr { request with gas_price := x } =
        call_context nonce gp to_addr request) ∧
    (∀ (nonce gp to_addr : Nat) (request : CallRequest),
      request.gas = none →
      (call_context nonce gp to_addr request).gas = 1 ∧
      (call_context nonce gp to_addr request).gas_price = gp) := by
  refine ⟨?_, ?_, ?_⟩
  · intro nonce gp to_addr g request hg
    simp [call_context, hg]
  · intro nonce gp to_addr request x
    rfl
  · intro nonce gp to_addr request hg
    simp [call_context, hg]

/-- A concrete request with both `gas` and `gas_price` set. -/
def reqGas3 : CallRequest :=
  { from_ := none, to_ := some 1, gas := some 3, gas_price := some 500,
    value := none, data := none }

/-- The same request with `gas` omitted. -/
def reqNoGas : CallRequest :=
  { from_ := none, to_ := some 1, gas := none, gas_price := some 500,
    value := none, data := none }

/-- C10 witness: a request with `gas = 3` and `gas_price = 500` yields a
context with `gas = 3` and `gas_price = 3`; omitting `gas` falls back to
the node's gas price 7. -/
theorem call_context_gas_price_from_request_gas_witness :
    (call_context 0 7 1 reqGas3).gas = 3 ∧
    (call_context 0 7 1 reqGas3).gas_price = 3 ∧
    (call_context 0 7 1 reqNoGas).gas_price = 7 :=
  ⟨(call_context_gas_price_from_request_gas.1 0 7 1 3 reqGas3 rfl).1,
   (call_context_gas_price_from_request_gas.1 0 7 1 3 reqGas3 rfl).2,
   (call_context_gas_price_from_request_gas.2.2 0 7 1 reqNoGas rfl).2⟩

/-- C9: a call or transaction carrying non-zero value to a function whose
state mutability is not `payable` panics before any expectation is
consulted: the method — including every expectation's `checked` flag and
usage counter — is returned unchanged, whatever the expectations are. -/
theorem nonpayable_guard_fatal_before_expectations
    (m : Method) (tx : CallContext) (data : List AbiByte) (env : SeqEnv)
    (hv : tx.value ≠ 0)
    (hm : m.function.state_mutability ≠ StateMutability.payable) :
    (Method.process_tx m tx data env).out =
      Except.error ("call to non-payable " ++ m.description ++
        " with non-zero value " ++ toString tx.value) ∧
    (Method.process_tx m tx data env).self = m := by
  unfold Method.process_tx
  rw [if_pos ⟨hv, hm⟩]
  exact ⟨rfl, rfl⟩

/-- C9 witness: sending value 5 to the non-payable `noopFn` method panics
and leaves its expectation untouched. -/
theorem nonpayable_guard_fatal_before_expectations_witness :
    (Method.process_tx methodNoop { ctx0 with is_view_call := false, value := 5 }
        sel7 env0).out =
      Except.error ("call to non-payable " ++ methodNoop.description ++
        " with non-zero value " ++ toString 5) ∧
    (Method.process_tx methodNoop { ctx0 with is_view_call := false, value := 5 }
        sel7 env0).self = methodNoop :=
  nonpayable_guard_fatal_before_expectations methodNoop
    { ctx0 with is_view_call := false, value := 5 } sel7 env0
    (by decide) (by decide)

/-- C6: `eth_call` never mutates the nonce table, the block counter, or
the receipts table — whatever the request, block argument, and outcome
(success, revert, or even a panic). -/
theorem call_preserves_nonce_block_receipts
    (s : MockTransportState) (env : SeqEnv) (request : CallRequest)
    (blockArg : Option BlockNumber) :
    ((call s env request blockArg).state).nonce = s.nonce ∧
    ((call s env request blockArg).state).block = s.block ∧
    ((call s env request blockArg).state).receipts = s.receipts := by
  unfold call
  dsimp only
  repeat' split
  all_goals exact ⟨rfl, rfl, rfl⟩

/-- C5: `eth_sendRawTransaction` requires the exact stored nonce (0 for an
address with no stored entry): on a match the stored nonce becomes N+1 —
whatever happens later in the dispatch — and on any other carried nonce
the call panics with the nonce-mismatch message. -/
theorem nonce_monotonicity :
    (∀ (s : MockTransportState) (env : SeqEnv) (tx : Tx),
      (alist_get s.nonce tx.from_).getD 0 = tx.nonce →
      alist_get ((send_raw_transaction s env (RawTx.valid tx)).state).nonce tx.from_
        = some (tx.nonce + 1)) ∧
    (∀ (s : MockTransportState) (env : SeqEnv) (tx : Tx),
      (alist_get s.nonce tx.from_).getD 0 ≠ tx.nonce →
      (send_raw_transaction s env (RawTx.valid tx)).out =
        Except.error ("nonce mismatch for account " ++ toString tx.from_ ++
          ": expected " ++ toString tx.nonce ++ ", actual " ++
          toString ((alist_get s.nonce tx.from_).getD 0))) := by
  constructor
  · intro s env tx hn
    unfold send_raw_transaction
    simp only [verify]
    rw [if_neg (not_ne_iff.mpr hn)]
    repeat' split
    all_goals simp [alist_insert, alist_get, hn]
  · intro s env tx hn
    unfold send_raw_transaction
    simp only [verify]
    rw [if_pos hn]

/-- C5 witness: from the fresh state, a transaction from address 5 with
nonce 0 stores nonce 1; one carrying nonce 5 instead panics. -/
theorem nonce_monotonicity_witness :
    alist_get ((send_raw_transaction state1 env0 (RawTx.valid tx1)).state).nonce 5
      = some 1 ∧
    (send_raw_transaction state1 env0 (RawTx.valid { tx1 with nonce := 5 })).out =
      Except.error ("nonce mismatch for account " ++ toString (5 : Nat) ++
        ": expected " ++ toString (5 : Nat) ++ ", actual " ++ toString (0 : Nat)) :=
  ⟨nonce_monotonicity.1 state1 env0 tx1 rfl,
   nonce_monotonicity.2 state1 env0 { tx1 with nonce := 5 } (by decide)⟩

/-- The success path of `send_raw_transaction`: valid signature, matching
nonce, deployed recipient contract, and a dispatch that returns a
transaction result. The hash is returned, the block advances by
`1 + confirmations`, and the recorded receipt carries the hash, the block
counter as of right after the `+1` advancement, and the status bit of the
contract-level result. -/
theorem send_raw_success_shape
    (s : MockTransportState) (env : SeqEnv) (tx : Tx) (c : Contract)
    (r : TransactionResult)
    (hn : (alist_get s.nonce tx.from_).getD 0 = tx.nonce)
    (hc : alist_get s.contracts tx.to_ = some c)
    (hr : (Contract.process_tx c (send_context tx) tx.data env).out = Except.ok r) :
    (send_raw_transaction s env (RawTx.valid tx)).out = Except.ok tx.hash ∧
    ((send_raw_transaction s env (RawTx.valid tx)).state).block
      = s.block + 1 + r.confirmations ∧
    ((send_raw_transaction s env (RawTx.valid tx)).state).receipts =
      alist_insert s.receipts tx.hash
        { transaction_hash := tx.hash, transaction_index := 0, block_hash := none,
          block_number := some (s.block + 1), from_ := tx.from_, to_ := some tx.to_,
          cumulative_gas_used := 1, gas_used := none, contract_address := none,
          status := some (if r.result.isOk then 1 else 0) } := by
  unfold send_raw_transaction
  simp only [verify]
  rw [if_neg (not_ne_iff.mpr hn)]
  by_cases hnone : (alist_get s.nonce tx.from_).isNone = true
  · rw [if_pos hnone]
    dsimp only
    rw [hc]
    dsimp only
    rw [hr]
    exact ⟨rfl, rfl, rfl⟩
  · rw [if_neg hnone]
    rw [hc]
    dsimp only
    rw [hr]
    exact ⟨rfl, rfl, rfl⟩

/-- C4: a state-changing transaction whose dispatch returns a result
advances the block counter by exactly `1 + confirmations` of the matched
expectation's result, while a view call (`eth_call`) never changes the
block counter. -/
theorem block_advancement :
    (∀ (s : MockTransportState) (env : SeqEnv) (tx : Tx) (c : Contract)
        (r : TransactionResult),
      (alist_get s.nonce tx.from_).getD 0 = tx.nonce →
      alist_get s.contracts tx.to_ = some c →
      (Contract.process_tx c (send_context tx) tx.data env).out = Except.ok r →
      ((send_raw_transaction s env (RawTx.valid tx)).state).block
        = s.block + 1 + r.confirmations) ∧
    (∀ (s : MockTransportState) (env : SeqEnv) (request : CallRequest)
        (blockArg : Option BlockNumber),
      ((call s env request blockArg).state).block = s.block) := by
  constructor
  · intro s env tx c r hn hc hr
    exact (send_raw_success_shape s env tx c r hn hc hr).2.1
  · intro s env request blockArg
    unfold call
    dsimp only
    repeat' split
    all_goals rfl

/-- C4 witness: the fixture transaction (confirmations 2) moves the block
counter from 0 to 3; a view call leaves it at 0. -/
theorem block_advancement_witness :
    ((send_raw_transaction state1 env0 (RawTx.valid tx1)).state).block
      = state1.block + 1 + 2 ∧
    ((call state1 env0 reqNoGas none).state).block = state1.block :=
  ⟨block_advancement.1 state1 env0 tx1 contract1
      { result := Except.ok [AbiByte.tok (Token.tuple [])], confirmations := 2 }
      rfl rfl rfl,
   block_advancement.2 state1 env0 reqNoGas none⟩

/-- C2 counterexample: with 2 extra confirmations configured, the stored
receipt's `block_number` is 1 (the counter right after the `+1`), while
the block counter after the full advancement for the transaction is 3 —
so the receipt's block number does NOT equal the post-advancement counter
as the claim states. -/
theorem receipt_block_number_excludes_confirmations :
    ((send_raw_transaction state1 env0 (RawTx.valid tx1)).state).block = 3 ∧
    Except.map TransactionReceipt.block_number
      (get_transaction_receipt
        ((send_raw_transaction state1 env0 (RawTx.valid tx1)).state) 99)
      = Except.ok (some 1) ∧
    (1 : Nat) ≠ 3 :=
  ⟨rfl, rfl, by decide⟩

/-- C2 (amended): after `eth_sendRawTransaction` returns hash H,
`eth_getTransactionReceipt(H)` returns a receipt whose `status` is 1
exactly when the contract call succeeded and 0 when it reverted, and
whose `block_number` is the counter right after the `+1` advancement —
the configured confirmation delay is added to the block counter only
after the receipt is recorded. -/
theorem receipt_round_trip
    (s : MockTransportState) (env : SeqEnv) (tx : Tx) (c : Contract)
    (r : TransactionResult)
    (hn : (alist_get s.nonce tx.from_).getD 0 = tx.nonce)
    (hc : alist_get s.contracts tx.to_ = some c)
    (hr : (Contract.process_tx c (send_context tx) tx.data env).out = Except.ok r) :
    (send_raw_transaction s env (RawTx.valid tx)).out = Except.ok tx.hash ∧
    get_transaction_receipt ((send_raw_transaction s env (RawTx.valid tx)).state) tx.hash
      = Except.ok
        { transaction_hash := tx.hash, transaction_index := 0, block_hash := none,
          block_number := some (s.block + 1), from_ := tx.from_, to_ := some tx.to_,
          cumulative_gas_used := 1, gas_used := none, contract_address := none,
          status := some (if r.result.isOk then 1 else 0) } ∧
    ((send_raw_transaction s env (RawTx.valid tx)).state).block
      = s.block + 1 + r.confirmations := by
  obtain ⟨h1, h2, h3⟩ := send_raw_success_shape s env tx c r hn hc hr
  refine ⟨h1, ?_, h2⟩
  unfold get_transaction_receipt
  rw [h3]
  simp [alist_insert, alist_get]

/-- C2 witness: the fixture transaction yields hash 99, a receipt with
status 1 and block number 1, and a final block counter of 3. -/
theorem receipt_round_trip_witness :
    (send_raw_transaction state1 env0 (RawTx.valid tx1)).out = Except.ok 99 ∧
    get_transaction_receipt ((send_raw_transaction state1 env0 (RawTx.valid tx1)).state) 99
      = Except.ok
        { transaction_hash := 99, transaction_index := 0, block_hash := none,
          block_number := some 1, from_ := 5, to_ := some 1,
          cumulative_gas_used := 1, gas_used := none, contract_address := none,
          status := some 1 } ∧
    ((send_raw_transaction state1 env0 (RawTx.valid tx1)).state).block = 0 + 1 + 2 :=
  receipt_round_trip state1 env0 tx1 contract1
    { result := Except.ok [AbiByte.tok (Token.tuple [])], confirmations := 2 }
    rfl rfl rfl

/-- An expectation that lets the scan continue: it is inactive (skipped
by `is_active`), or its match attempt declines the call without a panic —
returning no result, its `checked` flag set, and the sequence state
untouched (every declining branch of `process_tx` has this shape). -/
def fallsThrough (tx : CallContext) (description : String)
    (function : Function) (params : List Token) (env : SeqEnv)
    (e : Expectation) : Prop :=
  e.is_active = false ∨
  e.process_tx tx description function params env =
    ⟨{ e with checked := true }, env, Except.ok none⟩

/-- The state of an expectation after a declined match attempt: an active
one has its `checked` flag set, an inactive one is untouched. -/
def touched (e : Expectation) : Expectation :=
  if e.is_active then { e with checked := true } else e

/-- Scanning a list whose prefix entirely falls through reduces to
scanning the suffix: the prefix contributes only `checked` flags, and the
sequence state reaches the suffix unchanged. -/
theorem processExpectations_append (tx : CallContext) (description : String)
    (function : Function) (params : List Token) :
    ∀ (xs l : List Expectation) (env : SeqEnv),
      (∀ x ∈ xs, fallsThrough tx description function params env x) →
      processExpectations tx description function params (xs ++ l) env =
        (xs.map touched ++
          (processExpectations tx description function params l env).1,
         (processExpectations tx description function params l env).2.1,
         (processExpectations tx description function params l env).2.2) := by
  intro xs
  induction xs with
  | nil => intro l env _; rfl
  | cons x xs ih =>
    intro l env hall
    have hx := hall x (List.mem_cons_self x xs)
    have hxs : ∀ y ∈ xs, fallsThrough tx description function params env y :=
      fun y hy => hall y (List.mem_cons_of_mem x hy)
    by_cases ha : x.is_active
    · rcases hx with hx | hx
      · exact absurd hx (by simp [ha])
      · simp only [List.cons_append, processExpectations, ha, if_true]
        rw [hx]
        dsimp only
        simp only [List.append_eq]
        rw [ih l env hxs]
        simp [touched, ha]
    · simp only [List.cons_append, processExpectations, ha, if_false]
      simp only [List.append_eq]
      rw [ih l env hxs]
      simp [touched, ha]

/-- A fully matching attempt with no sequence handle: the expectation's
`checked` flag is set, its usage counter is incremented, and the outcome
is the `Returns` strategy's token, ABI-encoded, with the configured
confirmations. -/
theorem process_tx_match_shape (e : Expectation) (tx : CallContext)
    (description : String) (function : Function) (params : List Token)
    (env : SeqEnv) (p : Token)
    (hmode : ((tx.is_view_call && !e.allow_calls) ||
      (!tx.is_view_call && !e.allow_transactions)) = false)
    (hcnt : e.times.can_call e.used = true)
    (htok : e.from_token (Token.tuple params) = Except.ok p)
    (hpred : e.predicate.can_call tx p = true)
    (hseq : e.sequence = none) :
    e.process_tx tx description function params env =
      ⟨{ e with checked := true, used := e.used + 1 }, env,
       Except.ok (some ⟨(e.returns.process_tx function tx p).map
         (fun t => abi_encode [t]), e.confirmations⟩)⟩ := by
  unfold Expectation.process_tx
  simp only [hmode, hcnt, htok, hpred, hseq]
  rfl

/-- C8: an expectation whose usage counter has reached the upper bound of
its times range is no longer active: the scan skips it untouched and
falls through to the next expectation; and when every expectation falls
through, the call panics with a message naming the method. -/
theorem exhausted_falls_through_and_no_match_fatal :
    (∀ (tx : CallContext) (description : String) (function : Function)
        (params : List Token) (env : SeqEnv) (e : Expectation)
        (rest : List Expectation) (hi : Nat),
      e.times.upper = some hi → hi ≤ e.used →
      processExpectations tx description function params (e :: rest) env =
        (e :: (processExpectations tx description function params rest env).1,
         (processExpectations tx description function params rest env).2.1,
         (processExpectations tx description function params rest env).2.2)) ∧
    (∀ (m : Method) (tx : CallContext) (data : List AbiByte) (env : SeqEnv)
        (params : List Token),
      ¬(tx.value ≠ 0 ∧ m.function.state_mutability ≠ StateMutability.payable) →
      decode_input m.function.inputs (data.drop 4) = Except.ok params →
      (∀ e ∈ m.expectations, fallsThrough tx m.description m.function params env e) →
      (Method.process_tx m tx data env).out =
        Except.error ("unexpected call to " ++ m.description)) := by
  constructor
  · intro tx description function params env e rest hi hup hused
    have ha : e.is_active = false := by
      simp only [Expectation.is_active, TimesRange.can_call, hup,
        decide_eq_false_iff_not]
      omega
    simp [processExpectations, ha]
  · intro m tx data env params hg hd hall
    unfold Method.process_tx
    rw [if_neg hg, hd]
    have happ := processExpectations_append tx m.description m.function params
      m.expectations [] env hall
    rw [List.append_nil] at happ
    dsimp only
    rw [happ]
    simp [processExpectations]

/-- C8 witness: an expectation with range `[1,1]` already used once is
skipped unchanged, and a method holding only that expectation panics with
"unexpected call to noop on contract 1". -/
theorem exhausted_falls_through_and_no_match_fatal_witness :
    processExpectations ctx0 "m" noopFn []
        [{ Expectation.new with times := { lower := 1, upper := some 1 }, used := 1 }]
        env0
      = ({ Expectation.new with times := { lower := 1, upper := some 1 }, used := 1 } ::
          (processExpectations ctx0 "m" noopFn [] [] env0).1,
         (processExpectations ctx0 "m" noopFn [] [] env0).2.1,
         (processExpectations ctx0 "m" noopFn [] [] env0).2.2) ∧
    (Method.process_tx
        { (Method.new 1 noopFn) with expectations :=
            [{ Expectation.new with times := { lower := 1, upper := some 1 }, used := 1 }] }
        ctx0 sel7 env0).out =
      Except.error ("unexpected call to " ++ "noop on contract 1") :=
  ⟨exhausted_falls_through_and_no_match_fatal.1 ctx0 "m" noopFn [] env0
      { Expectation.new with times := { lower := 1, upper := some 1 }, used := 1 }
      [] 1 rfl (by decide),
   exhausted_falls_through_and_no_match_fatal.2
      { (Method.new 1 noopFn) with expectations :=
          [{ Expectation.new with times := { lower := 1, upper := some 1 }, used := 1 }] }
      ctx0 sel7 env0 [] (by decide) rfl
      (by
        intro e he
        simp only [List.mem_singleton] at he
        subst he
        exact Or.inl rfl)⟩

/-- C7: expectations are scanned in insertion order; when the whole prefix
falls through and expectation `e` passes the call-mode filter, the count
check, the tuple conversion, and its predicate (no sequence handle), `e`
is the one whose `Returns` strategy produces the outcome and whose usage
counter is incremented — later expectations, even ones that could also
match, are left untouched. -/
theorem first_matching_expectation_wins
    (m : Method) (tx : CallContext) (data : List AbiByte) (env : SeqEnv)
    (params : List Token) (xs ys : List Expectation) (e : Expectation)
    (p : Token)
    (hg : ¬(tx.value ≠ 0 ∧ m.function.state_mutability ≠ StateMutability.payable))
    (hd : decode_input m.function.inputs (data.drop 4) = Except.ok params)
    (hm : m.expectations = xs ++ e :: ys)
    (hxs : ∀ x ∈ xs, fallsThrough tx m.description m.function params env x)
    (hmode : ((tx.is_view_call && !e.allow_calls) ||
      (!tx.is_view_call && !e.allow_transactions)) = false)
    (hcnt : e.times.can_call e.used = true)
    (htok : e.from_token (Token.tuple params) = Except.ok p)
    (hpred : e.predicate.can_call tx p = true)
    (hseq : e.sequence = none) :
    (Method.process_tx m tx data env).out =
      Except.ok ⟨(e.returns.process_tx m.function tx p).map
        (fun t => abi_encode [t]), e.confirmations⟩ ∧
    (Method.process_tx m tx data env).self.expectations =
      xs.map touched ++
        ({ e with checked := true, used := e.used + 1 } :: ys) := by
  have ha : e.is_active = true := hcnt
  have hstep := process_tx_match_shape e tx m.description m.function params env p
    hmode hcnt htok hpred hseq
  unfold Method.process_tx
  rw [if_neg hg, hd]
  dsimp only
  rw [hm, processExpectations_append tx m.description m.function params xs
    (e :: ys) env hxs]
  simp only [processExpectations, ha, if_true]
  rw [hstep]
  exact ⟨rfl, rfl⟩

/-- An expectation whose predicate rejects every call. -/
def expReject : Expectation :=
  { Expectation.new with predicate := Predicate.function (fun _ => false) }

/-- An expectation returning the constant token 42. -/
def expConst42 : Expectation :=
  { Expectation.new with returns := Returns.const (Token.uint 42) }

/-- An expectation returning the constant token 7 — it could match every
call that `expConst42` matches, but is registered after it. -/
def expConst7 : Expectation :=
  { Expectation.new with returns := Returns.const (Token.uint 7) }

/-- A method with a rejecting expectation first, then two expectations
that could both match any call. -/
def methodOrdered : Method :=
  { (Method.new 1 noopFn) with expectations := [expReject, expConst42, expConst7] }

/-- C7 witness: on `methodOrdered`, the first matching expectation
(`expConst42`, registered before `expConst7`) produces the outcome 42 and
is the one whose counter moves; `expConst7` stays untouched. -/
theorem first_matching_expectation_wins_witness :
    (Method.process_tx methodOrdered ctx0 sel7 env0).out =
      Except.ok ⟨(expConst42.returns.process_tx methodOrdered.function ctx0
        (Token.tuple [])).map (fun t => abi_encode [t]), expConst42.confirmations⟩ ∧
    (Method.process_tx methodOrdered ctx0 sel7 env0).self.expectations =
      [expReject].map touched ++
        ({ expConst42 with checked := true, used := expConst42.used + 1 } ::
          [expConst7]) :=
  first_matching_expectation_wins methodOrdered ctx0 sel7 env0 [] [expReject]
    [expConst7] expConst42 (Token.tuple []) (by decide) rfl rfl
    (by
      intro x hx
      simp only [List.mem_singleton] at hx
      subst hx
      exact Or.inr rfl)
    rfl rfl rfl rfl rfl

/-- C3 (amended): when an expectation with a sequence handle passes the
call-mode filter, the count check, the tuple conversion, and its
predicate, the usage counter is incremented FIRST, and only then is the
sequence handle asked whether prior obligations are satisfied: an
out-of-order call aborts fatally (before the `Returns` strategy produces
any outcome) with the counter already incremented, while an in-order call
proceeds to the `Returns` strategy. -/
theorem sequence_verified_after_increment_before_returns
    (e : Expectation) (tx : CallContext) (description : String)
    (function : Function) (params : List Token) (env : SeqEnv)
    (h : SeqHandle) (p : Token)
    (hseq : e.sequence = some h)
    (hmode : ((tx.is_view_call && !e.allow_calls) ||
      (!tx.is_view_call && !e.allow_transactions)) = false)
    (hcnt : e.times.can_call e.used = true)
    (htok : e.from_token (Token.tuple params) = Except.ok p)
    (hpred : e.predicate.can_call tx p = true) :
    (e.process_tx tx description function params env).self.used = e.used + 1 ∧
    (h.verify_ok env = false →
      (e.process_tx tx description function params env).out =
        Except.error ("sequence violation: out-of-order call to " ++ description)) ∧
    (h.verify_ok env = true →
      (e.process_tx tx description function params env).out =
        Except.ok (some ⟨(e.returns.process_tx function tx p).map
          (fun t => abi_encode [t]), e.confirmations⟩)) := by
  unfold Expectation.process_tx
  by_cases hv : h.verify_ok env = true
  · simp [hmode, hcnt, htok, hpred, hseq, hv]
  · simp [hmode, hcnt, htok, hpred, hseq, hv]

/-- An expectation that is the second member (position 1) of sequence 0. -/
def seqExp : Expectation :=
  { Expectation.new with sequence := some { seq := 0, position := 1 } }

/-- C3 counterexample: a call matching `seqExp` (position 1 of sequence 0)
while the earlier member is unsatisfied (`env0`) aborts fatally — but the
abort state shows `used = 1` even though `seqExp.used = 0`, so the
sequence is NOT consulted before the usage counter is incremented, as the
claim states: had it been, the counter would still be 0 at the abort. -/
theorem sequence_violation_aborts_with_counter_already_incremented :
    (seqExp.process_tx ctx0 "m" noopFn [] env0).out =
      Except.error ("sequence violation: out-of-order call to " ++ "m") ∧
    (seqExp.process_tx ctx0 "m" noopFn [] env0).self.used = 1 ∧
    seqExp.used = 0 :=
  ⟨rfl, rfl, rfl⟩

/-- C3 witness: instantiating the amended theorem on `seqExp` under the
empty sequence environment. -/
theorem sequence_verified_after_increment_before_returns_witness :
    (seqExp.process_tx ctx0 "w" noopFn [] env0).self.used = seqExp.used + 1 ∧
    (SeqHandle.verify_ok { seq := 0, position := 1 } env0 = false →
      (seqExp.process_tx ctx0 "w" noopFn [] env0).out =
        Except.error ("sequence violation: out-of-order call to " ++ "w")) ∧
    (SeqHandle.verify_ok { seq := 0, position := 1 } env0 = true →
      (seqExp.process_tx ctx0 "w" noopFn [] env0).out =
        Except.ok (some ⟨(seqExp.returns.process_tx noopFn ctx0
          (Token.tuple [])).map (fun t => abi_encode [t]), seqExp.confirmations⟩)) :=
  sequence_verified_after_increment_before_returns seqExp ctx0 "w" noopFn []
    env0 { seq := 0, position := 1 } (Token.tuple []) rfl rfl rfl rfl rfl

end EthMock
